import Mathlib

/-!
Verification of the workflow-orchestration behaviour of the repository's
fund-analysis flow (`section4.py`), blog-content flow (`section5.py`) and the
pure helper functions of the news-briefing bot (`section3.py`).

The two elaborate flows are built on the `crewai` `Flow` engine, which is an
external dependency: only the flow definitions (step handlers, `@listen` /
`@router` / `@start` / `or_` trigger declarations) live in the repository.
The engine itself (event bus, trigger evaluation, scheduling) is therefore
modelled from the specification; the handlers and triggers are translated
from the source files.  Opaque external calls performed inside handlers
(LLM/agent invocations, web search, file output) are abstracted as oracle
values carried alongside the flow state; everything the handlers do with the
flow state itself is translated literally.

Python `str` values are modelled as `String` (or `List Char` where character
arithmetic matters), Python `int` as `Int`, and the `float` budget field as
`Rat` (its only use in the modelled code is the zero / non-zero test performed
by `not self.state.budget`).
-/

namespace AgentCourse

/-! ### The orchestration engine, modelled from the spec

Modelled from the spec: the `crewai` Flow execution engine (step registry,
trigger evaluator, event bus, scheduler) is not part of the repository's
source tree, so it is reconstructed from the specification: an execution
keeps an append-only event log, a step becomes eligible once per event
occurrence that satisfies its trigger, routers emit label events or a
terminal sentinel, and the run ends at quiescence (empty event queue) or on
the first handler failure. Independent branches of the studied flows are
never simultaneously eligible, so the sequential processing order used here
is a faithful interleaving of the spec's concurrent dispatch. -/

inductive Event
  | started
  | stepCompleted (name : String)
  | labelEmitted (label : String)
  deriving DecidableEq, Repr

inductive Trigger
  | onStart
  | onComplete (step : String)
  | onLabel (label : String)
  | onAny (a b : Trigger)
  deriving DecidableEq, Repr

def Trigger.satisfiedBy : Trigger → Event → Bool
  | .onStart, .started => true
  | .onComplete s, .stepCompleted n => s == n
  | .onLabel l, .labelEmitted m => l == m
  | .onAny a b, e => a.satisfiedBy e || b.satisfiedBy e
  | _, _ => false

/-- A registered step: name, trigger, and a handler acting on the execution
context `σ`.  A handler either fails (Python `raise`) or returns the updated
context together with an optional emitted label (routers return `some label`
or the terminal sentinel `none`; plain listeners always return `none`). -/
structure FStep (σ : Type) where
  name : String
  trigger : Trigger
  handler : σ → Except String (σ × Option String)

inductive FlowResult (σ : Type)
  | completed (st : σ) (log : List String) (trace : List Event)
  | failed (msg : String) (log : List String) (trace : List Event)
  | outOfFuel

/-- Run the steps fired by one event, in registry order, threading the
context.  Returns the names of the dispatched steps together with either the
failure message of the first raising handler or the final context and the
completion/label events produced. -/
def runFired {σ : Type} (fired : List (FStep σ)) (st : σ) :
    List String × Except String (σ × List Event) :=
  match fired with
  | [] => ([], Except.ok (st, []))
  | s :: rest =>
    match s.handler st with
    | Except.error msg => ([s.name], Except.error msg)
    | Except.ok (st1, lbl) =>
      match runFired rest st1 with
      | (names, Except.error msg) => (s.name :: names, Except.error msg)
      | (names, Except.ok (st2, evs)) =>
        (s.name :: names,
          Except.ok (st2,
            (Event.stepCompleted s.name ::
              (match lbl with
                | some l => [Event.labelEmitted l]
                | none => [])) ++ evs))

/-- The engine loop: pop the next event, dispatch every step whose trigger it
satisfies, append the produced events, and repeat until the queue is empty
(quiescence, `completed`) or a handler raises (`failed`).  `fuel` bounds the
number of processed events; the engine itself enforces no cycle limit, so a
run that needs more events than `fuel` yields `outOfFuel`. -/
def runFlow {σ : Type} (steps : List (FStep σ)) (fuel : Nat) (st : σ)
    (queue : List Event) (log : List String) (trace : List Event) :
    FlowResult σ :=
  match queue with
  | [] => FlowResult.completed st log trace
  | e :: rest =>
    if _h : fuel = 0 then FlowResult.outOfFuel
    else
      match runFired (steps.filter fun s => Trigger.satisfiedBy s.trigger e) st with
      | (names, Except.error msg) =>
          FlowResult.failed msg (log ++ names) (trace ++ [e])
      | (names, Except.ok (st', evs)) =>
          runFlow steps (fuel - 1) st' (rest ++ evs) (log ++ names) (trace ++ [e])
  termination_by fuel
  decreasing_by omega

/-- Function `kickoff`: start one execution with the single `started` event pending. -/
def kickoff {σ : Type} (steps : List (FStep σ)) (fuel : Nat) (st : σ) :
    FlowResult σ :=
  runFlow steps fuel st [Event.started] [] []

theorem runFlow_nil {σ : Type} (steps : List (FStep σ)) (fuel : Nat) (st : σ)
    (log : List String) (trace : List Event) :
    runFlow steps fuel st [] log trace = FlowResult.completed st log trace := by
  rw [runFlow]

theorem runFlow_cons_ok {σ : Type} {steps : List (FStep σ)} {fuel : Nat} {st st' : σ}
    {e : Event} {rest : List Event} {log names : List String} {trace evs : List Event}
    (h : fuel ≠ 0)
    (hrun : runFired (steps.filter fun s => Trigger.satisfiedBy s.trigger e) st =
      (names, Except.ok (st', evs))) :
    runFlow steps fuel st (e :: rest) log trace =
      runFlow steps (fuel - 1) st' (rest ++ evs) (log ++ names) (trace ++ [e]) := by
  rw [runFlow]
  simp [h, hrun]

theorem runFlow_cons_err {σ : Type} {steps : List (FStep σ)} {fuel : Nat} {st : σ}
    {e : Event} {rest : List Event} {log names : List String} {trace : List Event}
    {msg : String}
    (h : fuel ≠ 0)
    (hrun : runFired (steps.filter fun s => Trigger.satisfiedBy s.trigger e) st =
      (names, Except.error msg)) :
    runFlow steps fuel st (e :: rest) log trace =
      FlowResult.failed msg (log ++ names) (trace ++ [e]) := by
  rw [runFlow]
  simp [h, hrun]

/-! ### The fund-analysis flow (`section4.py`)

`FundManagerFlow` over `FundManagerState`.  Crew/agent outputs are opaque
(`CrewOutput`); they are abstracted as `Nat` oracle values carried in the
execution context.  The strategy agent's textual answer
(`str(analysis_result)`) is the `strategy_text` oracle string. -/

/-- Contiguous-sublist test on character lists. -/
def containsSubList (needle : List Char) : List Char → Bool
  | [] => needle.isEmpty
  | c :: rest => needle.isPrefixOf (c :: rest) || containsSubList needle rest

/-- Python `needle in haystack` substring test. -/
def containsSub (hay needle : String) : Bool :=
  containsSubList needle.toList hay.toList

/-- Python `str.lower()`, modelled as the character-wise lower-casing (the
handlers only ever test for the ASCII substring `"growth"`). -/
def strLower (s : String) : String :=
  String.mk (s.toList.map Char.toLower)

namespace Fund

/-- Structure `FundManagerState` from `section4.py` (field for field; `CrewOutput`
values abstracted as `Nat`, the `float` budget as `Rat`). -/
structure FundManagerState where
  investment_goal : String := ""
  risk_preference : String := ""
  budget : Rat := 0
  strategy_type : String := ""
  tech_trends : Option Nat := none
  growth_scores : Option Nat := none
  stability_scores : Option Nat := none
  divide_scores : Option Nat := none
  portfolio : Option Nat := none
  deriving DecidableEq, Repr

/-- Execution context: the flow state plus the oracle values standing for
the opaque agent/crew outputs consumed by the handlers. -/
structure Ctx where
  state : FundManagerState
  strategy_text : String := ""
  tech_out : Nat := 0
  growth_out : Nat := 0
  stability_out : Nat := 0
  divide_out : Nat := 0
  portfolio_out : Nat := 0
  deriving DecidableEq, Repr

/-- Step `init_fund_analysis` (`@start()`): validates the kickoff inputs; Python
`not x` is the empty-string test for the two text fields and the zero test
for the float budget. -/
def init_fund_analysis (c : Ctx) : Except String (Ctx × Option String) :=
  if c.state.investment_goal = "" then Except.error "투자 목표를 입력해주세요"
  else if c.state.risk_preference = "" then Except.error "투자 성향을 입력해주세요"
  else if c.state.budget = 0 then Except.error "예산을 입력해주세요"
  else Except.ok (c, none)

/-- Step `analyze_investment_strategy` (`@listen(init_fund_analysis)`): the agent
call is abstracted as `strategy_text`; the handler lower-cases it and sets
`strategy_type` to `"growth"` when it contains the substring `"growth"`,
otherwise `"value"`. -/
def analyze_investment_strategy (c : Ctx) : Except String (Ctx × Option String) :=
  let analysis_text := strLower c.strategy_text
  if containsSub analysis_text "growth" then
    Except.ok ({ c with state := { c.state with strategy_type := "growth" } }, none)
  else
    Except.ok ({ c with state := { c.state with strategy_type := "value" } }, none)

/-- Step `strategy_router` (`@router(analyze_investment_strategy)`): returns the
label for the chosen branch; the Python function falls through (returning
`None`, the terminal sentinel) when `strategy_type` is neither string. -/
def strategy_router (c : Ctx) : Except String (Ctx × Option String) :=
  if c.state.strategy_type = "growth" then Except.ok (c, some "growth_analysis")
  else if c.state.strategy_type = "value" then Except.ok (c, some "value_analysis")
  else Except.ok (c, none)

/-- Step `analyze_tech_trends` (`@listen("growth_analysis")`): runs the tech
analysis crew (abstracted as `tech_out`) and stores the result. -/
def analyze_tech_trends (c : Ctx) : Except String (Ctx × Option String) :=
  Except.ok ({ c with state := { c.state with tech_trends := some c.tech_out } }, none)

/-- Step `evaluate_growth_potential` (`@listen(analyze_tech_trends)`): runs the
growth-scoring crew (abstracted as `growth_out`) and stores the result. -/
def evaluate_growth_potential (c : Ctx) : Except String (Ctx × Option String) :=
  Except.ok ({ c with state := { c.state with growth_scores := some c.growth_out } }, none)

/-- Step `screen_stable_companies` (`@listen("value_analysis")`): runs the
stability-screening crew (abstracted as `stability_out`) and stores the
result. -/
def screen_stable_companies (c : Ctx) : Except String (Ctx × Option String) :=
  Except.ok ({ c with state := { c.state with stability_scores := some c.stability_out } }, none)

/-- Step `evaluate_value_potential` (`@listen(screen_stable_companies)`): runs the
dividend-analysis crew (abstracted as `divide_out`) and stores the result. -/
def evaluate_value_potential (c : Ctx) : Except String (Ctx × Option String) :=
  Except.ok ({ c with state := { c.state with divide_scores := some c.divide_out } }, none)

/-- Step `synthesize_portfolio`
(`@listen(or_(evaluate_growth_potential, evaluate_value_potential))`): reads
`strategy_type` only to pick the prompt text, then stores the portfolio
crew's output (abstracted as `portfolio_out`). -/
def synthesize_portfolio (c : Ctx) : Except String (Ctx × Option String) :=
  Except.ok ({ c with state := { c.state with portfolio := some c.portfolio_out } }, none)

/-- Step `finalize_investment_recommendation` (`@listen(synthesize_portfolio)`):
returns `state.portfolio` and writes nothing. -/
def finalize_investment_recommendation (c : Ctx) : Except String (Ctx × Option String) :=
  Except.ok (c, none)

/-- The registered steps of `FundManagerFlow`, in source order, with the
triggers declared by the decorators. -/
def fundSteps : List (FStep Ctx) :=
  [⟨"init_fund_analysis", Trigger.onStart, init_fund_analysis⟩,
   ⟨"analyze_investment_strategy", Trigger.onComplete "init_fund_analysis",
     analyze_investment_strategy⟩,
   ⟨"strategy_router", Trigger.onComplete "analyze_investment_strategy", strategy_router⟩,
   ⟨"analyze_tech_trends", Trigger.onLabel "growth_analysis", analyze_tech_trends⟩,
   ⟨"evaluate_growth_potential", Trigger.onComplete "analyze_tech_trends",
     evaluate_growth_potential⟩,
   ⟨"screen_stable_companies", Trigger.onLabel "value_analysis", screen_stable_companies⟩,
   ⟨"evaluate_value_potential", Trigger.onComplete "screen_stable_companies",
     evaluate_value_potential⟩,
   ⟨"synthesize_portfolio",
     Trigger.onAny (Trigger.onComplete "evaluate_growth_potential")
       (Trigger.onComplete "evaluate_value_potential"), synthesize_portfolio⟩,
   ⟨"finalize_investment_recommendation", Trigger.onComplete "synthesize_portfolio",
     finalize_investment_recommendation⟩]

/-- The kickoff context used at the bottom of `section4.py` (the inputs of
the executed `flow.kickoff` call), with the strategy agent's answer left as
a parameter. -/
def ctx0 (text : String) : Ctx :=
  { state := { investment_goal := "AI 같은 첨단 기술주에 투자하고 싶습니다.",
               risk_preference := "공격적",
               budget := 20000 },
    strategy_text := text }

/-- A fund context with arbitrary kickoff inputs (used for the validation
claims). -/
def ctxIn (goal pref : String) (budget : Rat) : Ctx :=
  { state := { investment_goal := goal, risk_preference := pref, budget := budget } }

end Fund

/-! ### The blog-content flow (`section5.py`)

`BlogContentMakerFlow` over `BlogContentMakerState`.  The two `llm.call`
invocations of `handle_make_blog` are abstracted as an uninterpreted
function of the data the source interpolates into the prompt: the resulting
`Post` value records whether it came from the initial-draft branch (research
data only) or the rewrite branch (previous post, SEO score reason, research
data).  The SEO crew's scores are an oracle list consumed in order. -/

namespace Blog

/-- Structure `ScoreManager` from `section5.py`. -/
structure ScoreManager where
  score : Int := 0
  reason : String := ""
  deriving DecidableEq, Repr

/-- The `Post` produced by `llm.call`, abstracted by provenance: `draft` is
the `state.post is None` branch (prompt built from the research data),
`rewrite` is the remake branch (prompt built from the previous post, the SEO
reason and the research data). -/
inductive PostV
  | draft (research : Option Nat)
  | rewrite (prev : PostV) (score_reason : String) (research : Option Nat)
  deriving DecidableEq, Repr

/-- Structure `BlogContentMakerState` from `section5.py` (field for field;
`LiteAgentOutput` abstracted as `Nat`). -/
structure BlogContentMakerState where
  topic : String := ""
  max_length : Nat := 1000
  research_data : Option Nat := none
  score_manager : Option ScoreManager := none
  post : Option PostV := none
  deriving DecidableEq, Repr

/-- Execution context: the flow state plus the oracles for the researcher
agent's output and the SEO crew's successive score results. -/
structure Ctx where
  state : BlogContentMakerState
  research_out : Nat := 0
  seo_scores : List ScoreManager := []
  deriving DecidableEq, Repr

/-- Step `init_make_blog_content` (`@start()`): rejects an empty topic. -/
def init_make_blog_content (c : Ctx) : Except String (Ctx × Option String) :=
  if c.state.topic = "" then Except.error "주제는 비워둘 수 없습니다"
  else Except.ok (c, none)

/-- Step `research_by_topic` (`@listen(init_make_blog_content)`): stores the
researcher agent's output (abstracted as `research_out`). -/
def research_by_topic (c : Ctx) : Except String (Ctx × Option String) :=
  Except.ok ({ c with state := { c.state with research_data := some c.research_out } }, none)

/-- Step `handle_make_blog` (`@listen(or_(research_by_topic, "remake"))`): reads
the previous SEO reason (empty when no score yet), takes the initial-draft
branch when `state.post` is `None` and the rewrite branch otherwise, and
stores the produced post. -/
def handle_make_blog (c : Ctx) : Except String (Ctx × Option String) :=
  let score_reason :=
    match c.state.score_manager with
    | some sm => sm.reason
    | none => ""
  match c.state.post with
  | none =>
      Except.ok ({ c with state :=
        { c.state with post := some (PostV.draft c.state.research_data) } }, none)
  | some p =>
      Except.ok ({ c with state :=
        { c.state with
          post := some (PostV.rewrite p score_reason c.state.research_data) } }, none)

/-- Step `manage_seo` (`@listen(handle_make_blog)`): raises when there is no post,
otherwise stores the SEO crew's next result (oracle list consumed in
order; an exhausted oracle is reported as an error so that every theorem
explicitly supplies enough scores). -/
def manage_seo (c : Ctx) : Except String (Ctx × Option String) :=
  match c.state.post with
  | none => Except.error "post가 없습니다."
  | some _ =>
    match c.seo_scores with
    | [] => Except.error "seo oracle exhausted"
    | sm :: rest =>
        Except.ok ({ c with state := { c.state with score_manager := some sm },
                            seo_scores := rest }, none)

/-- Step `manage_score_router` (`@router(manage_seo)`): raises when no score is
present; with a score of at least 80 it saves the markdown file (a pure file
side effect, no state change) and returns the terminal sentinel, otherwise
it emits the label `"remake"`. -/
def manage_score_router (c : Ctx) : Except String (Ctx × Option String) :=
  match c.state.score_manager with
  | none => Except.error "score_manager가 없습니다."
  | some sm =>
    if sm.score ≥ 80 then Except.ok (c, none)
    else Except.ok (c, some "remake")

/-- The registered steps of `BlogContentMakerFlow`, in source order, with the
triggers declared by the decorators. -/
def blogSteps : List (FStep Ctx) :=
  [⟨"init_make_blog_content", Trigger.onStart, init_make_blog_content⟩,
   ⟨"research_by_topic", Trigger.onComplete "init_make_blog_content", research_by_topic⟩,
   ⟨"handle_make_blog",
     Trigger.onAny (Trigger.onComplete "research_by_topic") (Trigger.onLabel "remake"),
     handle_make_blog⟩,
   ⟨"manage_seo", Trigger.onComplete "handle_make_blog", manage_seo⟩,
   ⟨"manage_score_router", Trigger.onComplete "manage_seo", manage_score_router⟩]

/-- The kickoff context used at the bottom of `section5.py`
(`topic = "AI 로보틱스"`), with the SEO score oracle as a parameter. -/
def ctx0 (scores : List ScoreManager) : Ctx :=
  { state := { topic := "AI 로보틱스" }, seo_scores := scores }

/-- The step names logged by one pass of the remake cycle, `n` full rounds
(score below 80, label `"remake"` emitted, post rewritten) followed by the
final round in which the router reads a score of at least 80 and stops. -/
def cycleLog : Nat → List String
  | 0 => ["manage_seo", "manage_score_router"]
  | n + 1 => "manage_seo" :: "manage_score_router" :: "handle_make_blog" :: cycleLog n

/-- The events processed during the remake cycle, matching `cycleLog`. -/
def cycleTrace : Nat → List Event
  | 0 => [Event.stepCompleted "handle_make_blog", Event.stepCompleted "manage_seo",
          Event.stepCompleted "manage_score_router"]
  | n + 1 => Event.stepCompleted "handle_make_blog" :: Event.stepCompleted "manage_seo" ::
      Event.stepCompleted "manage_score_router" :: Event.labelEmitted "remake" :: cycleTrace n

end Blog

/-! ### Symbolic-execution lemmas for the blog flow's remake cycle -/

/-- One full remake round: from a configuration where `handle_make_blog` has
just completed, a score below 80 leads through `manage_seo`, the router's
`"remake"` label and a new `handle_make_blog` pass back to the same shape of
configuration, with the post rewritten from the previous one. -/
theorem blog_cycle_step (c : Blog.Ctx) (p : Blog.PostV) (sm : Blog.ScoreManager)
    (tl : List Blog.ScoreManager) (f : Nat) (log : List String) (trace : List Event)
    (hp : c.state.post = some p) (hs : c.seo_scores = sm :: tl) (hlt : sm.score < 80) :
    runFlow Blog.blogSteps (f + 4) c [Event.stepCompleted "handle_make_blog"] log trace =
      runFlow Blog.blogSteps f
        { c with
          state := { c.state with
                     score_manager := some sm,
                     post := some (Blog.PostV.rewrite p sm.reason c.state.research_data) },
          seo_scores := tl }
        [Event.stepCompleted "handle_make_blog"]
        (log ++ ["manage_seo", "manage_score_router", "handle_make_blog"])
        (trace ++ [Event.stepCompleted "handle_make_blog", Event.stepCompleted "manage_seo",
                   Event.stepCompleted "manage_score_router", Event.labelEmitted "remake"]) := by
  have d4 : f + 4 - 1 = f + 3 := by omega
  have d3 : f + 3 - 1 = f + 2 := by omega
  have d2 : f + 2 - 1 = f + 1 := by omega
  have d1 : f + 1 - 1 = f := by omega
  have e4 : (f + 4 = 0) = False := eq_false (by omega)
  have e3 : (f + 3 = 0) = False := eq_false (by omega)
  have e2 : (f + 2 = 0) = False := eq_false (by omega)
  have e1 : (f + 1 = 0) = False := eq_false (by omega)
  simp [runFlow, runFired, Blog.blogSteps, Trigger.satisfiedBy, Blog.handle_make_blog,
    Blog.manage_seo, Blog.manage_score_router, hp, hs, eq_false (not_le.mpr hlt),
    d4, d3, d2, d1, e4, e3, e2, e1]

/-- The terminating round: from the same configuration shape, a score of at
least 80 runs `manage_seo` and the router, which returns the terminal
sentinel; the queue drains and the flow completes. -/
theorem blog_cycle_final (c : Blog.Ctx) (p : Blog.PostV) (sm : Blog.ScoreManager)
    (tl : List Blog.ScoreManager) (log : List String) (trace : List Event)
    (hp : c.state.post = some p) (hs : c.seo_scores = sm :: tl) (hge : 80 ≤ sm.score) :
    runFlow Blog.blogSteps 3 c [Event.stepCompleted "handle_make_blog"] log trace =
      FlowResult.completed
        { c with state := { c.state with score_manager := some sm }, seo_scores := tl }
        (log ++ ["manage_seo", "manage_score_router"])
        (trace ++ [Event.stepCompleted "handle_make_blog", Event.stepCompleted "manage_seo",
                   Event.stepCompleted "manage_score_router"]) := by
  simp [runFlow, runFired, Blog.blogSteps, Trigger.satisfiedBy, Blog.handle_make_blog,
    Blog.manage_seo, Blog.manage_score_router, hp, hs, eq_true hge]

/-- The remake cycle in full: with scores `pre` all below 80 followed by a
passing score `sfin`, the cycle runs `pre.length` remake rounds plus the
final one, rewriting the post once per round with that round's SEO reason,
and completes with the remaining oracle untouched. -/
theorem blog_loop (pre : List Blog.ScoreManager) :
    ∀ (c : Blog.Ctx) (p : Blog.PostV) (sfin : Blog.ScoreManager)
      (rest : List Blog.ScoreManager) (log : List String) (trace : List Event),
      c.state.post = some p →
      c.seo_scores = pre ++ sfin :: rest →
      (∀ sm ∈ pre, sm.score < 80) →
      80 ≤ sfin.score →
      runFlow Blog.blogSteps (4 * pre.length + 3) c
          [Event.stepCompleted "handle_make_blog"] log trace =
        FlowResult.completed
          { c with
            state := { c.state with
                       score_manager := some sfin,
                       post := some (pre.foldl
                         (fun q sm => Blog.PostV.rewrite q sm.reason c.state.research_data) p) },
            seo_scores := rest }
          (log ++ Blog.cycleLog pre.length) (trace ++ Blog.cycleTrace pre.length) := by
  induction pre with
  | nil =>
    intro c p sfin rest log trace hp hs hpre hfin
    simp only [List.length_nil, Nat.mul_zero, Nat.zero_add, List.foldl_nil,
      Blog.cycleLog, Blog.cycleTrace, ← hp]
    exact blog_cycle_final c p sfin rest log trace hp (by simpa using hs) hfin
  | cons sm pre ih =>
    intro c p sfin rest log trace hp hs hpre hfin
    have hfuel : 4 * (sm :: pre).length + 3 = (4 * pre.length + 3) + 4 := by
      simp [List.length_cons]; ring
    rw [hfuel, blog_cycle_step c p sm (pre ++ sfin :: rest) _ log trace hp
      (by simpa using hs) (hpre sm (by simp))]
    rw [ih _ (Blog.PostV.rewrite p sm.reason c.state.research_data) sfin rest _ _ rfl rfl
      (fun x hx => hpre x (by simp [hx])) hfin]
    simp [Blog.cycleLog, Blog.cycleTrace, List.append_assoc, List.foldl_cons]

/-- The opening of every blog-flow execution with the source's kickoff topic:
validation, research, and the first (initial-draft) `handle_make_blog` pass,
reaching the cycle configuration. -/
theorem blog_prefix (scores : List Blog.ScoreManager) (f : Nat) :
    kickoff Blog.blogSteps (f + 3) (Blog.ctx0 scores) =
      runFlow Blog.blogSteps f
        { state := { topic := "AI 로보틱스", research_data := some 0,
                     post := some (Blog.PostV.draft (some 0)) },
          seo_scores := scores }
        [Event.stepCompleted "handle_make_blog"]
        ["init_make_blog_content", "research_by_topic", "handle_make_blog"]
        [Event.started, Event.stepCompleted "init_make_blog_content",
         Event.stepCompleted "research_by_topic"] := by
  have d3 : f + 3 - 1 = f + 2 := by omega
  have d2 : f + 2 - 1 = f + 1 := by omega
  have d1 : f + 1 - 1 = f := by omega
  have e3 : (f + 3 = 0) = False := eq_false (by omega)
  have e2 : (f + 2 = 0) = False := eq_false (by omega)
  have e1 : (f + 1 = 0) = False := eq_false (by omega)
  simp [kickoff, runFlow, runFired, Blog.blogSteps, Trigger.satisfiedBy, Blog.ctx0,
    Blog.init_make_blog_content, Blog.research_by_topic, Blog.handle_make_blog,
    d3, d2, d1, e3, e2, e1]

/-! ### The news-bot helper functions (`section3.py`)

`split_message` and `parse_time_string` are pure; Python `str` values are
modelled as their character lists (`List Char`), so that `len`, slicing,
concatenation and `split("\n")` translate to list operations. -/

namespace Bot

/-- The `while len(line) > max_length` loop inside `split_message`, which
emits `max_length`-sized chunks of an over-long line and leaves the
remainder in `current_message`.  The loop is driven by explicit fuel; at
every call site the fuel is the line's length, which suffices whenever
`max_length` is positive (each iteration drops `max_length` characters). -/
def chunkLoop (max_length : Nat) : Nat → List Char → List (List Char) × List Char
  | 0, line => ([], line)
  | fuel + 1, line =>
    if line.length > max_length then
      let r := chunkLoop max_length fuel (line.drop max_length)
      (line.take max_length :: r.1, r.2)
    else ([], line)

/-- The body of `split_message`'s `for line in lines` loop, acting on the
accumulator `(messages, current_message)`.  The Python truthiness test
`if current_message:` is the non-emptiness test. -/
def processLine (max_length : Nat) (acc : List (List Char) × List Char)
    (line : List Char) : List (List Char) × List Char :=
  let messages := acc.1
  let current_message := acc.2
  if (current_message ++ '\n' :: line).length > max_length then
    let messages := if current_message ≠ [] then messages ++ [current_message] else messages
    if line.length > max_length then
      let r := chunkLoop max_length line.length line
      (messages ++ r.1, r.2)
    else (messages, line)
  else
    if current_message ≠ [] then (messages, current_message ++ '\n' :: line)
    else (messages, line)

/-- Function `split_message` from `section3.py`: texts not longer than `max_length`
are returned whole; longer texts are split at line boundaries, with lines
longer than `max_length` force-split into `max_length`-sized chunks. -/
def split_message (text : List Char) (max_length : Nat) : List (List Char) :=
  if text.length ≤ max_length then [text]
  else
    let lines := text.splitOn '\n'
    let r := lines.foldl (processLine max_length) ([], [])
    if r.2 ≠ [] then r.1 ++ [r.2] else r.1

/-- The regex character class `[0-9]` as a code-point test (`'0'` is code
point 48, `'9'` is 57). -/
def IsDig (c : Char) : Prop := 48 ≤ c.toNat ∧ c.toNat ≤ 57

instance (c : Char) : Decidable (IsDig c) :=
  inferInstanceAs (Decidable (48 ≤ c.toNat ∧ c.toNat ≤ 57))

/-- Python `int` applied to a digit character. -/
def digVal (c : Char) : Nat := c.toNat - 48

/-- Full match of the regex `([0-1]?[0-9]|2[0-3]):([0-5][0-9])`, with the
two captured groups converted by `int`.  The hour part is one or two
characters and the minute part exactly two, so a matching string has length
4 or 5; character classes are code-point ranges (`':'` is code point 58,
`'5'` is 53, `'1'` is 49, `'3'` is 51). -/
def matchHHMM : List Char → Option (Nat × Nat)
  | [h1, c2, m1, m2] =>
    if IsDig h1 ∧ c2.toNat = 58 ∧ (48 ≤ m1.toNat ∧ m1.toNat ≤ 53) ∧ IsDig m2 then
      some (digVal h1, 10 * digVal m1 + digVal m2)
    else none
  | [h1, h2, c3, m1, m2] =>
    if ((48 ≤ h1.toNat ∧ h1.toNat ≤ 49) ∧ IsDig h2 ∨
          (h1.toNat = 50 ∧ 48 ≤ h2.toNat ∧ h2.toNat ≤ 51)) ∧
        c3.toNat = 58 ∧ (48 ≤ m1.toNat ∧ m1.toNat ≤ 53) ∧ IsDig m2 then
      some (10 * digVal h1 + digVal h2, 10 * digVal m1 + digVal m2)
    else none
  | _ => none

/-- Python `re.match` of the anchored pattern `^...$`: the pattern matches
the whole string, except that `$` also matches just before a single newline
at the end of the string, so a trailing `'\n'` is tolerated. -/
def reFullMatch (s : List Char) : Option (Nat × Nat) :=
  match matchHHMM s with
  | some r => some r
  | none =>
    match s.getLast? with
    | some c => if c = '\n' then matchHHMM s.dropLast else none
    | none => none

/-- Function `parse_time_string` from `section3.py`: the `(hour, minute)` pair of the
regex match (the Python code builds `datetime.time(hour, minute)` from it),
or the `ValueError` message when the regex does not match. -/
def parse_time_string (s : List Char) : Except String (Nat × Nat) :=
  match reFullMatch s with
  | some (h, m) => Except.ok (h, m)
  | none =>
      Except.error "시간 형식이 올바르지 않습니다. HH:MM 형식으로 입력해주세요. (예: 09:30)"

/-- The claim's accepted shape, written from its words: an hour of one or
two digits with value 0-23, then `':'`, then a two-digit minute 00-59, and
nothing else; the parsed values are returned. -/
def claimTimeShape : List Char → Option (Nat × Nat)
  | [h1, c2, m1, m2] =>
    if IsDig h1 ∧ c2.toNat = 58 ∧ IsDig m1 ∧ IsDig m2 ∧ digVal h1 ≤ 23 ∧
        10 * digVal m1 + digVal m2 ≤ 59 then
      some (digVal h1, 10 * digVal m1 + digVal m2)
    else none
  | [h1, h2, c3, m1, m2] =>
    if IsDig h1 ∧ IsDig h2 ∧ c3.toNat = 58 ∧ IsDig m1 ∧ IsDig m2 ∧
        10 * digVal h1 + digVal h2 ≤ 23 ∧ 10 * digVal m1 + digVal m2 ≤ 59 then
      some (10 * digVal h1 + digVal h2, 10 * digVal m1 + digVal m2)
    else none
  | _ => none

/-- The amended claim's accepted inputs: the claim shape itself, or the
claim shape followed by exactly one trailing newline. -/
def claimTimeShapeNL (s : List Char) : Option (Nat × Nat) :=
  match claimTimeShape s with
  | some r => some r
  | none =>
    match s.getLast? with
    | some c => if c = '\n' then claimTimeShape s.dropLast else none
    | none => none

end Bot

/-! ### The claims -/

/-- C1: in the blog-content flow, when the SEO router reads scores below 80
on its first two evaluations and at least 80 on the third,
`handle_make_blog` runs exactly 3 times (once on research completion and
once per emitted `"remake"` label), `manage_seo` runs exactly 3 times, and
the flow completes right after the third `manage_score_router` evaluation
with no further step running. -/
theorem claim1_remake_twice_then_three_runs (s1 s2 s3 : Int) (r1 r2 r3 : String)
    (h1 : s1 < 80) (h2 : s2 < 80) (h3 : 80 ≤ s3) :
    ∃ st log trace,
      kickoff Blog.blogSteps 14 (Blog.ctx0 [⟨s1, r1⟩, ⟨s2, r2⟩, ⟨s3, r3⟩]) =
        FlowResult.completed st log trace ∧
      log = ["init_make_blog_content", "research_by_topic", "handle_make_blog",
             "manage_seo", "manage_score_router", "handle_make_blog", "manage_seo",
             "manage_score_router", "handle_make_blog", "manage_seo",
             "manage_score_router"] ∧
      log.count "handle_make_blog" = 3 ∧
      log.count "manage_seo" = 3 ∧
      log.count "manage_score_router" = 3 ∧
      log.getLast? = some "manage_score_router" := by
  refine ⟨{ state := { topic := "AI 로보틱스", max_length := 1000,
                       research_data := some 0,
                       score_manager := some ⟨s3, r3⟩,
                       post := some (Blog.PostV.rewrite
                         (Blog.PostV.rewrite (Blog.PostV.draft (some 0)) r1 (some 0))
                         r2 (some 0)) },
            seo_scores := [] }, _,
    [Event.started, Event.stepCompleted "init_make_blog_content",
     Event.stepCompleted "research_by_topic", Event.stepCompleted "handle_make_blog",
     Event.stepCompleted "manage_seo", Event.stepCompleted "manage_score_router",
     Event.labelEmitted "remake", Event.stepCompleted "handle_make_blog",
     Event.stepCompleted "manage_seo", Event.stepCompleted "manage_score_router",
     Event.labelEmitted "remake", Event.stepCompleted "handle_make_blog",
     Event.stepCompleted "manage_seo", Event.stepCompleted "manage_score_router"],
    ?_, rfl, by decide, by decide, by decide, by decide⟩
  simp [kickoff, runFlow, runFired, Blog.blogSteps, Trigger.satisfiedBy,
    Blog.ctx0, Blog.init_make_blog_content, Blog.research_by_topic,
    Blog.handle_make_blog, Blog.manage_seo, Blog.manage_score_router,
    eq_false (not_le.mpr h1), eq_false (not_le.mpr h2), eq_true h3]

/-- C1 witness: the spec's scenario scores 60, 60, 85. -/
theorem claim1_witness :
    ∃ st log trace,
      kickoff Blog.blogSteps 14
          (Blog.ctx0 [⟨60, "이유1"⟩, ⟨60, "이유2"⟩, ⟨85, "이유3"⟩]) =
        FlowResult.completed st log trace ∧
      log = ["init_make_blog_content", "research_by_topic", "handle_make_blog",
             "manage_seo", "manage_score_router", "handle_make_blog", "manage_seo",
             "manage_score_router", "handle_make_blog", "manage_seo",
             "manage_score_router"] ∧
      log.count "handle_make_blog" = 3 ∧
      log.count "manage_seo" = 3 ∧
      log.count "manage_score_router" = 3 ∧
      log.getLast? = some "manage_score_router" :=
  claim1_remake_twice_then_three_runs 60 60 85 "이유1" "이유2" "이유3"
    (by decide) (by decide) (by decide)

/-- C2: in every fund-analysis execution in which the strategy router emits
`"growth_analysis"` (which the code does exactly when the lower-cased agent
output contains `"growth"`), the steps `init_fund_analysis`,
`analyze_investment_strategy`, `analyze_tech_trends`,
`evaluate_growth_potential` and the join `synthesize_portfolio` all run,
and `screen_stable_companies` and `evaluate_value_potential` never run. -/
theorem claim2_growth_route_runs (text : String)
    (hg : containsSub (strLower text) "growth" = true) :
    ∃ st log trace,
      kickoff Fund.fundSteps 10 (Fund.ctx0 text) =
        FlowResult.completed st log trace ∧
      log = ["init_fund_analysis", "analyze_investment_strategy", "strategy_router",
             "analyze_tech_trends", "evaluate_growth_potential", "synthesize_portfolio",
             "finalize_investment_recommendation"] ∧
      Event.labelEmitted "growth_analysis" ∈ trace ∧
      "init_fund_analysis" ∈ log ∧
      "analyze_investment_strategy" ∈ log ∧
      "analyze_tech_trends" ∈ log ∧
      "evaluate_growth_potential" ∈ log ∧
      "synthesize_portfolio" ∈ log ∧
      "screen_stable_companies" ∉ log ∧
      "evaluate_value_potential" ∉ log := by
  refine ⟨{ state := { investment_goal := "AI 같은 첨단 기술주에 투자하고 싶습니다.",
                       risk_preference := "공격적", budget := 20000,
                       strategy_type := "growth", tech_trends := some 0,
                       growth_scores := some 0, stability_scores := none,
                       divide_scores := none, portfolio := some 0 },
            strategy_text := text }, _,
    [Event.started, Event.stepCompleted "init_fund_analysis",
     Event.stepCompleted "analyze_investment_strategy",
     Event.stepCompleted "strategy_router", Event.labelEmitted "growth_analysis",
     Event.stepCompleted "analyze_tech_trends",
     Event.stepCompleted "evaluate_growth_potential",
     Event.stepCompleted "synthesize_portfolio",
     Event.stepCompleted "finalize_investment_recommendation"],
    ?_, rfl, by decide, by decide, by decide, by decide, by decide, by decide,
    by decide, by decide⟩
  simp [kickoff, runFlow, runFired, Fund.fundSteps, Trigger.satisfiedBy,
    Fund.ctx0, Fund.init_fund_analysis, Fund.analyze_investment_strategy,
    Fund.strategy_router, Fund.analyze_tech_trends, Fund.evaluate_growth_potential,
    Fund.screen_stable_companies, Fund.evaluate_value_potential,
    Fund.synthesize_portfolio, Fund.finalize_investment_recommendation, hg]

/-- C2 witness: an agent answer containing `"growth"`. -/
theorem claim2_witness :
    ∃ st log trace,
      kickoff Fund.fundSteps 10 (Fund.ctx0 "The best strategy is growth.") =
        FlowResult.completed st log trace ∧
      log = ["init_fund_analysis", "analyze_investment_strategy", "strategy_router",
             "analyze_tech_trends", "evaluate_growth_potential", "synthesize_portfolio",
             "finalize_investment_recommendation"] ∧
      Event.labelEmitted "growth_analysis" ∈ trace ∧
      "init_fund_analysis" ∈ log ∧
      "analyze_investment_strategy" ∈ log ∧
      "analyze_tech_trends" ∈ log ∧
      "evaluate_growth_potential" ∈ log ∧
      "synthesize_portfolio" ∈ log ∧
      "screen_stable_companies" ∉ log ∧
      "evaluate_value_potential" ∉ log :=
  claim2_growth_route_runs "The best strategy is growth." (by decide)

/-- C4: in every fund-analysis execution (whatever the strategy agent
answers), the `OnAny`-triggered join `synthesize_portfolio` runs exactly
once, on whichever branch the router selected, and the flow completes
rather than blocking on the other branch's never-occurring completion. -/
theorem claim4_join_runs_once (text : String) :
    ∃ st log trace,
      kickoff Fund.fundSteps 10 (Fund.ctx0 text) =
        FlowResult.completed st log trace ∧
      log.count "synthesize_portfolio" = 1 ∧
      log.getLast? = some "finalize_investment_recommendation" := by
  by_cases hg : containsSub (strLower text) "growth" = true
  · refine ⟨{ state := { investment_goal := "AI 같은 첨단 기술주에 투자하고 싶습니다.",
                         risk_preference := "공격적", budget := 20000,
                         strategy_type := "growth", tech_trends := some 0,
                         growth_scores := some 0, stability_scores := none,
                         divide_scores := none, portfolio := some 0 },
              strategy_text := text },
      ["init_fund_analysis", "analyze_investment_strategy", "strategy_router",
       "analyze_tech_trends", "evaluate_growth_potential", "synthesize_portfolio",
       "finalize_investment_recommendation"],
      [Event.started, Event.stepCompleted "init_fund_analysis",
       Event.stepCompleted "analyze_investment_strategy",
       Event.stepCompleted "strategy_router", Event.labelEmitted "growth_analysis",
       Event.stepCompleted "analyze_tech_trends",
       Event.stepCompleted "evaluate_growth_potential",
       Event.stepCompleted "synthesize_portfolio",
       Event.stepCompleted "finalize_investment_recommendation"],
      ?_, by decide, by decide⟩
    simp [kickoff, runFlow, runFired, Fund.fundSteps, Trigger.satisfiedBy,
      Fund.ctx0, Fund.init_fund_analysis, Fund.analyze_investment_strategy,
      Fund.strategy_router, Fund.analyze_tech_trends, Fund.evaluate_growth_potential,
      Fund.screen_stable_companies, Fund.evaluate_value_potential,
      Fund.synthesize_portfolio, Fund.finalize_investment_recommendation, hg]
  · refine ⟨{ state := { investment_goal := "AI 같은 첨단 기술주에 투자하고 싶습니다.",
                         risk_preference := "공격적", budget := 20000,
                         strategy_type := "value", tech_trends := none,
                         growth_scores := none, stability_scores := some 0,
                         divide_scores := some 0, portfolio := some 0 },
              strategy_text := text },
      ["init_fund_analysis", "analyze_investment_strategy", "strategy_router",
       "screen_stable_companies", "evaluate_value_potential", "synthesize_portfolio",
       "finalize_investment_recommendation"],
      [Event.started, Event.stepCompleted "init_fund_analysis",
       Event.stepCompleted "analyze_investment_strategy",
       Event.stepCompleted "strategy_router", Event.labelEmitted "value_analysis",
       Event.stepCompleted "screen_stable_companies",
       Event.stepCompleted "evaluate_value_potential",
       Event.stepCompleted "synthesize_portfolio",
       Event.stepCompleted "finalize_investment_recommendation"],
      ?_, by decide, by decide⟩
    simp [kickoff, runFlow, runFired, Fund.fundSteps, Trigger.satisfiedBy,
      Fund.ctx0, Fund.init_fund_analysis, Fund.analyze_investment_strategy,
      Fund.strategy_router, Fund.analyze_tech_trends, Fund.evaluate_growth_potential,
      Fund.screen_stable_companies, Fund.evaluate_value_potential,
      Fund.synthesize_portfolio, Fund.finalize_investment_recommendation, hg]

/-- C5: a kickoff with bad initial inputs (fund flow: empty
`investment_goal`, empty `risk_preference`, or zero budget; blog flow:
empty `topic`) makes the `OnStart` step raise a `ValueError`, failing the
execution immediately, with no subsequent step dispatched; with all inputs
present and non-empty/nonzero, the `OnStart` step does not raise. -/
theorem claim5_onstart_validation :
    (∀ (pref : String) (b : Rat),
       kickoff Fund.fundSteps 10 (Fund.ctxIn "" pref b) =
         FlowResult.failed "투자 목표를 입력해주세요" ["init_fund_analysis"] [Event.started]) ∧
    (∀ (goal : String) (b : Rat), goal ≠ "" →
       kickoff Fund.fundSteps 10 (Fund.ctxIn goal "" b) =
         FlowResult.failed "투자 성향을 입력해주세요" ["init_fund_analysis"] [Event.started]) ∧
    (∀ (goal pref : String), goal ≠ "" → pref ≠ "" →
       kickoff Fund.fundSteps 10 (Fund.ctxIn goal pref 0) =
         FlowResult.failed "예산을 입력해주세요" ["init_fund_analysis"] [Event.started]) ∧
    (∀ (scores : List Blog.ScoreManager),
       kickoff Blog.blogSteps 10 { state := { topic := "" }, seo_scores := scores } =
         FlowResult.failed "주제는 비워둘 수 없습니다" ["init_make_blog_content"]
           [Event.started]) ∧
    (∀ (goal pref : String) (b : Rat), goal ≠ "" → pref ≠ "" → b ≠ 0 →
       Fund.init_fund_analysis (Fund.ctxIn goal pref b) =
         Except.ok (Fund.ctxIn goal pref b, none)) ∧
    (∀ c : Blog.Ctx, c.state.topic ≠ "" →
       Blog.init_make_blog_content c = Except.ok (c, none)) := by
  refine ⟨?_, ?_, ?_, ?_, ?_, ?_⟩
  · intro pref b
    simp [kickoff, runFlow, runFired, Fund.fundSteps, Trigger.satisfiedBy,
      Fund.ctxIn, Fund.init_fund_analysis]
  · intro goal b hgoal
    simp [kickoff, runFlow, runFired, Fund.fundSteps, Trigger.satisfiedBy,
      Fund.ctxIn, Fund.init_fund_analysis, hgoal]
  · intro goal pref hgoal hpref
    simp [kickoff, runFlow, runFired, Fund.fundSteps, Trigger.satisfiedBy,
      Fund.ctxIn, Fund.init_fund_analysis, hgoal, hpref]
  · intro scores
    simp [kickoff, runFlow, runFired, Blog.blogSteps, Trigger.satisfiedBy,
      Blog.init_make_blog_content]
  · intro goal pref b hgoal hpref hb
    simp [Fund.init_fund_analysis, Fund.ctxIn, hgoal, hpref, hb]
  · intro c htopic
    simp [Blog.init_make_blog_content, htopic]

/-- C5 witness: each clause instantiated at a concrete bad (or good)
input. -/
theorem claim5_witness :
    (kickoff Fund.fundSteps 10 (Fund.ctxIn "" "공격적" 5) =
       FlowResult.failed "투자 목표를 입력해주세요" ["init_fund_analysis"] [Event.started]) ∧
    (kickoff Fund.fundSteps 10 (Fund.ctxIn "배당" "" 5) =
       FlowResult.failed "투자 성향을 입력해주세요" ["init_fund_analysis"] [Event.started]) ∧
    (kickoff Fund.fundSteps 10 (Fund.ctxIn "배당" "보수적" 0) =
       FlowResult.failed "예산을 입력해주세요" ["init_fund_analysis"] [Event.started]) ∧
    (kickoff Blog.blogSteps 10 { state := { topic := "" }, seo_scores := [] } =
       FlowResult.failed "주제는 비워둘 수 없습니다" ["init_make_blog_content"]
         [Event.started]) ∧
    (Fund.init_fund_analysis (Fund.ctxIn "배당" "보수적" 50000) =
       Except.ok (Fund.ctxIn "배당" "보수적" 50000, none)) ∧
    (Blog.init_make_blog_content (Blog.ctx0 []) = Except.ok (Blog.ctx0 [], none)) :=
  ⟨claim5_onstart_validation.1 "공격적" 5,
   claim5_onstart_validation.2.1 "배당" 5 (by decide),
   claim5_onstart_validation.2.2.1 "배당" "보수적" (by decide) (by decide),
   claim5_onstart_validation.2.2.2.1 [],
   claim5_onstart_validation.2.2.2.2.1 "배당" "보수적" 50000 (by decide) (by decide)
     (by norm_num),
   claim5_onstart_validation.2.2.2.2.2 (Blog.ctx0 []) (by decide)⟩

/-- C7: `analyze_investment_strategy` always succeeds and leaves
`strategy_type` exactly `"growth"` (when the lower-cased agent output
contains `"growth"`) or `"value"` (otherwise); consequently
`strategy_router` returns one of the labels `"growth_analysis"` /
`"value_analysis"`, never the terminal sentinel, and the emitted label
satisfies the `OnLabel` trigger of exactly one of the two branch entry
steps. -/
theorem claim7_strategy_router_total (c : Fund.Ctx) :
    ∃ c', Fund.analyze_investment_strategy c = Except.ok (c', none) ∧
      c'.state.strategy_type =
        (if containsSub (strLower c.strategy_text) "growth" = true then "growth"
         else "value") ∧
      ∃ l, Fund.strategy_router c' = Except.ok (c', some l) ∧
        (l = "growth_analysis" ∨ l = "value_analysis") ∧
        (Trigger.onLabel "growth_analysis").satisfiedBy (Event.labelEmitted l) ≠
          (Trigger.onLabel "value_analysis").satisfiedBy (Event.labelEmitted l) := by
  by_cases hg : containsSub (strLower c.strategy_text) "growth" = true
  · refine ⟨{ c with state := { c.state with strategy_type := "growth" } },
      ?_, ?_, "growth_analysis", ?_, Or.inl rfl, by decide⟩
    · simp [Fund.analyze_investment_strategy, hg]
    · simp [hg]
    · simp [Fund.strategy_router]
  · refine ⟨{ c with state := { c.state with strategy_type := "value" } },
      ?_, ?_, "value_analysis", ?_, Or.inr rfl, by decide⟩
    · simp [Fund.analyze_investment_strategy, hg]
    · simp [hg]
    · simp [Fund.strategy_router]

/-- C8: the two router branches of the fund flow write disjoint state
fields: an execution routed to growth leaves `stability_scores` and
`divide_scores` at their initial `none` while setting `tech_trends` and
`growth_scores`, and an execution routed to value does the opposite. -/
theorem claim8_disjoint_branch_writes (text : String) :
    ∃ st log trace,
      kickoff Fund.fundSteps 10 (Fund.ctx0 text) =
        FlowResult.completed st log trace ∧
      (if containsSub (strLower text) "growth" = true then
        st.state.stability_scores = none ∧ st.state.divide_scores = none ∧
        st.state.tech_trends = some 0 ∧ st.state.growth_scores = some 0
      else
        st.state.tech_trends = none ∧ st.state.growth_scores = none ∧
        st.state.stability_scores = some 0 ∧ st.state.divide_scores = some 0) := by
  by_cases hg : containsSub (strLower text) "growth" = true
  · refine ⟨{ state := { investment_goal := "AI 같은 첨단 기술주에 투자하고 싶습니다.",
                         risk_preference := "공격적", budget := 20000,
                         strategy_type := "growth", tech_trends := some 0,
                         growth_scores := some 0, stability_scores := none,
                         divide_scores := none, portfolio := some 0 },
              strategy_text := text },
      ["init_fund_analysis", "analyze_investment_strategy", "strategy_router",
       "analyze_tech_trends", "evaluate_growth_potential", "synthesize_portfolio",
       "finalize_investment_recommendation"],
      [Event.started, Event.stepCompleted "init_fund_analysis",
       Event.stepCompleted "analyze_investment_strategy",
       Event.stepCompleted "strategy_router", Event.labelEmitted "growth_analysis",
       Event.stepCompleted "analyze_tech_trends",
       Event.stepCompleted "evaluate_growth_potential",
       Event.stepCompleted "synthesize_portfolio",
       Event.stepCompleted "finalize_investment_recommendation"], ?_, ?_⟩
    · simp [kickoff, runFlow, runFired, Fund.fundSteps, Trigger.satisfiedBy,
        Fund.ctx0, Fund.init_fund_analysis, Fund.analyze_investment_strategy,
        Fund.strategy_router, Fund.analyze_tech_trends, Fund.evaluate_growth_potential,
        Fund.screen_stable_companies, Fund.evaluate_value_potential,
        Fund.synthesize_portfolio, Fund.finalize_investment_recommendation, hg]
    · simp [hg]
  · refine ⟨{ state := { investment_goal := "AI 같은 첨단 기술주에 투자하고 싶습니다.",
                         risk_preference := "공격적", budget := 20000,
                         strategy_type := "value", tech_trends := none,
                         growth_scores := none, stability_scores := some 0,
                         divide_scores := some 0, portfolio := some 0 },
              strategy_text := text },
      ["init_fund_analysis", "analyze_investment_strategy", "strategy_router",
       "screen_stable_companies", "evaluate_value_potential", "synthesize_portfolio",
       "finalize_investment_recommendation"],
      [Event.started, Event.stepCompleted "init_fund_analysis",
       Event.stepCompleted "analyze_investment_strategy",
       Event.stepCompleted "strategy_router", Event.labelEmitted "value_analysis",
       Event.stepCompleted "screen_stable_companies",
       Event.stepCompleted "evaluate_value_potential",
       Event.stepCompleted "synthesize_portfolio",
       Event.stepCompleted "finalize_investment_recommendation"], ?_, ?_⟩
    · simp [kickoff, runFlow, runFired, Fund.fundSteps, Trigger.satisfiedBy,
        Fund.ctx0, Fund.init_fund_analysis, Fund.analyze_investment_strategy,
        Fund.strategy_router, Fund.analyze_tech_trends, Fund.evaluate_growth_potential,
        Fund.screen_stable_companies, Fund.evaluate_value_potential,
        Fund.synthesize_portfolio, Fund.finalize_investment_recommendation, hg]
    · simp [hg]

theorem cycleLog_count_make (n : Nat) :
    (Blog.cycleLog n).count "handle_make_blog" = n := by
  induction n with
  | zero => decide
  | succ n ih => simp [Blog.cycleLog, List.count_cons, ih]

theorem cycleTrace_count_remake (n : Nat) :
    (Blog.cycleTrace n).count (Event.labelEmitted "remake") = n := by
  induction n with
  | zero => decide
  | succ n ih => simp [Blog.cycleTrace, List.count_cons, ih]

theorem cycleLog_concat (n : Nat) :
    ∃ l, Blog.cycleLog n = l ++ ["manage_score_router"] := by
  induction n with
  | zero => exact ⟨["manage_seo"], rfl⟩
  | succ n ih =>
    obtain ⟨l, hl⟩ := ih
    exact ⟨"manage_seo" :: "manage_score_router" :: "handle_make_blog" :: l,
      by simp [Blog.cycleLog, hl]⟩

theorem cycleLog_getLast (l : List String) (n : Nat) :
    (l ++ Blog.cycleLog n).getLast? = some "manage_score_router" := by
  obtain ⟨m, hm⟩ := cycleLog_concat n
  rw [hm, ← List.append_assoc, List.getLast?_concat]

/-- C3: whenever the blog flow's router observes a score of at least 80 it
returns the terminal sentinel instead of a label, and from that point on no
step gated on the `"remake"` label runs again: the run completes right
after that router evaluation (the remaining score oracle `rest` is never
consumed), `handle_make_blog` ran only for the research completion and the
`pre.length` earlier sub-80 evaluations, and exactly `pre.length` `"remake"`
labels were ever emitted. -/
theorem claim3_terminal_router_halts (pre : List Blog.ScoreManager)
    (sfin : Blog.ScoreManager) (rest : List Blog.ScoreManager)
    (hpre : ∀ sm ∈ pre, sm.score < 80) (hfin : 80 ≤ sfin.score) :
    ∃ st : Blog.Ctx,
      kickoff Blog.blogSteps (4 * pre.length + 6) (Blog.ctx0 (pre ++ sfin :: rest)) =
        FlowResult.completed st
          (["init_make_blog_content", "research_by_topic", "handle_make_blog"] ++
            Blog.cycleLog pre.length)
          ([Event.started, Event.stepCompleted "init_make_blog_content",
            Event.stepCompleted "research_by_topic"] ++ Blog.cycleTrace pre.length) ∧
      Blog.manage_score_router st = Except.ok (st, none) ∧
      (["init_make_blog_content", "research_by_topic", "handle_make_blog"] ++
        Blog.cycleLog pre.length).getLast? = some "manage_score_router" ∧
      (["init_make_blog_content", "research_by_topic", "handle_make_blog"] ++
        Blog.cycleLog pre.length).count "handle_make_blog" = pre.length + 1 ∧
      ([Event.started, Event.stepCompleted "init_make_blog_content",
        Event.stepCompleted "research_by_topic"] ++ Blog.cycleTrace pre.length).count
          (Event.labelEmitted "remake") = pre.length := by
  have h6 : 4 * pre.length + 6 = 4 * pre.length + 3 + 3 := by omega
  refine ⟨{ state := { topic := "AI 로보틱스", max_length := 1000,
                       research_data := some 0, score_manager := some sfin,
                       post := some (pre.foldl
                         (fun q sm => Blog.PostV.rewrite q sm.reason (some 0))
                         (Blog.PostV.draft (some 0))) },
            seo_scores := rest },
    ?_, ?_, cycleLog_getLast _ _, ?_, ?_⟩
  · rw [h6, blog_prefix,
      blog_loop pre _ (Blog.PostV.draft (some 0)) sfin rest _ _ rfl rfl hpre hfin]
  · simp [Blog.manage_score_router, eq_true hfin]
  · rw [List.count_append, cycleLog_count_make,
      show List.count "handle_make_blog"
        ["init_make_blog_content", "research_by_topic", "handle_make_blog"] = 1
        from by decide]
    omega
  · rw [List.count_append, cycleTrace_count_remake,
      show List.count (Event.labelEmitted "remake")
        [Event.started, Event.stepCompleted "init_make_blog_content",
         Event.stepCompleted "research_by_topic"] = 0 from by decide]
    omega

/-- C3 witness: one failing score, then a passing one, with an unconsumed
leftover oracle entry. -/
theorem claim3_witness :
    ∃ st : Blog.Ctx,
      kickoff Blog.blogSteps (4 * [(⟨50, "사유"⟩ : Blog.ScoreManager)].length + 6)
          (Blog.ctx0 ([⟨50, "사유"⟩] ++ ⟨90, "좋음"⟩ :: [⟨10, "남음"⟩])) =
        FlowResult.completed st
          (["init_make_blog_content", "research_by_topic", "handle_make_blog"] ++
            Blog.cycleLog [(⟨50, "사유"⟩ : Blog.ScoreManager)].length)
          ([Event.started, Event.stepCompleted "init_make_blog_content",
            Event.stepCompleted "research_by_topic"] ++
            Blog.cycleTrace [(⟨50, "사유"⟩ : Blog.ScoreManager)].length) ∧
      Blog.manage_score_router st = Except.ok (st, none) ∧
      (["init_make_blog_content", "research_by_topic", "handle_make_blog"] ++
        Blog.cycleLog [(⟨50, "사유"⟩ : Blog.ScoreManager)].length).getLast? =
          some "manage_score_router" ∧
      (["init_make_blog_content", "research_by_topic", "handle_make_blog"] ++
        Blog.cycleLog [(⟨50, "사유"⟩ : Blog.ScoreManager)].length).count
          "handle_make_blog" = [(⟨50, "사유"⟩ : Blog.ScoreManager)].length + 1 ∧
      ([Event.started, Event.stepCompleted "init_make_blog_content",
        Event.stepCompleted "research_by_topic"] ++
        Blog.cycleTrace [(⟨50, "사유"⟩ : Blog.ScoreManager)].length).count
          (Event.labelEmitted "remake") = [(⟨50, "사유"⟩ : Blog.ScoreManager)].length :=
  claim3_terminal_router_halts [⟨50, "사유"⟩] ⟨90, "좋음"⟩ [⟨10, "남음"⟩]
    (by intro sm hsm; simp at hsm; simp [hsm]) (by decide)

/-- C6: in the blog flow's remake cycle, each pass's write to `state.post`
is visible to the next pass: the first (research-triggered) pass finds
`post = none` and takes the initial-draft branch, and each later
(`"remake"`-triggered) pass rewrites exactly the post written by the
previous pass using the reason stored by `manage_seo` — the final post is
the left fold of `rewrite` over the sub-80 scores, starting from the
draft — and `handle_make_blog` runs exactly once per triggering event
(1 research completion plus `pre.length` emitted `"remake"` labels). -/
theorem claim6_cycle_state_visibility (pre : List Blog.ScoreManager)
    (sfin : Blog.ScoreManager)
    (hpre : ∀ sm ∈ pre, sm.score < 80) (hfin : 80 ≤ sfin.score) :
    ∃ st : Blog.Ctx,
      kickoff Blog.blogSteps (4 * pre.length + 6) (Blog.ctx0 (pre ++ [sfin])) =
        FlowResult.completed st
          (["init_make_blog_content", "research_by_topic", "handle_make_blog"] ++
            Blog.cycleLog pre.length)
          ([Event.started, Event.stepCompleted "init_make_blog_content",
            Event.stepCompleted "research_by_topic"] ++ Blog.cycleTrace pre.length) ∧
      st.state.post = some (pre.foldl
        (fun q sm => Blog.PostV.rewrite q sm.reason (some 0))
        (Blog.PostV.draft (some 0))) ∧
      st.state.score_manager = some sfin ∧
      (["init_make_blog_content", "research_by_topic", "handle_make_blog"] ++
        Blog.cycleLog pre.length).count "handle_make_blog" = pre.length + 1 ∧
      ([Event.started, Event.stepCompleted "init_make_blog_content",
        Event.stepCompleted "research_by_topic"] ++ Blog.cycleTrace pre.length).count
          (Event.labelEmitted "remake") = pre.length := by
  have h6 : 4 * pre.length + 6 = 4 * pre.length + 3 + 3 := by omega
  refine ⟨{ state := { topic := "AI 로보틱스", max_length := 1000,
                       research_data := some 0, score_manager := some sfin,
                       post := some (pre.foldl
                         (fun q sm => Blog.PostV.rewrite q sm.reason (some 0))
                         (Blog.PostV.draft (some 0))) },
            seo_scores := [] },
    ?_, rfl, rfl, ?_, ?_⟩
  · rw [h6, blog_prefix,
      blog_loop pre _ (Blog.PostV.draft (some 0)) sfin [] _ _ rfl rfl hpre hfin]
  · rw [List.count_append, cycleLog_count_make,
      show List.count "handle_make_blog"
        ["init_make_blog_content", "research_by_topic", "handle_make_blog"] = 1
        from by decide]
    omega
  · rw [List.count_append, cycleTrace_count_remake,
      show List.count (Event.labelEmitted "remake")
        [Event.started, Event.stepCompleted "init_make_blog_content",
         Event.stepCompleted "research_by_topic"] = 0 from by decide]
    omega

/-- C6 witness: two failing scores, then a passing one. -/
theorem claim6_witness :
    ∃ st : Blog.Ctx,
      kickoff Blog.blogSteps
          (4 * [(⟨40, "사유1"⟩ : Blog.ScoreManager), ⟨55, "사유2"⟩].length + 6)
          (Blog.ctx0 ([⟨40, "사유1"⟩, ⟨55, "사유2"⟩] ++ [⟨95, "좋음"⟩])) =
        FlowResult.completed st
          (["init_make_blog_content", "research_by_topic", "handle_make_blog"] ++
            Blog.cycleLog [(⟨40, "사유1"⟩ : Blog.ScoreManager), ⟨55, "사유2"⟩].length)
          ([Event.started, Event.stepCompleted "init_make_blog_content",
            Event.stepCompleted "research_by_topic"] ++
            Blog.cycleTrace [(⟨40, "사유1"⟩ : Blog.ScoreManager), ⟨55, "사유2"⟩].length) ∧
      st.state.post = some
        ([(⟨40, "사유1"⟩ : Blog.ScoreManager), ⟨55, "사유2"⟩].foldl
          (fun q sm => Blog.PostV.rewrite q sm.reason (some 0))
          (Blog.PostV.draft (some 0))) ∧
      st.state.score_manager = some ⟨95, "좋음"⟩ ∧
      (["init_make_blog_content", "research_by_topic", "handle_make_blog"] ++
        Blog.cycleLog [(⟨40, "사유1"⟩ : Blog.ScoreManager), ⟨55, "사유2"⟩].length).count
          "handle_make_blog" =
        [(⟨40, "사유1"⟩ : Blog.ScoreManager), ⟨55, "사유2"⟩].length + 1 ∧
      ([Event.started, Event.stepCompleted "init_make_blog_content",
        Event.stepCompleted "research_by_topic"] ++
        Blog.cycleTrace [(⟨40, "사유1"⟩ : Blog.ScoreManager), ⟨55, "사유2"⟩].length).count
          (Event.labelEmitted "remake") =
        [(⟨40, "사유1"⟩ : Blog.ScoreManager), ⟨55, "사유2"⟩].length :=
  claim6_cycle_state_visibility [⟨40, "사유1"⟩, ⟨55, "사유2"⟩] ⟨95, "좋음"⟩
    (by intro sm hsm; simp at hsm; rcases hsm with h | h <;> simp [h]) (by decide)

theorem chunkLoop_spec (max_length : Nat) (hm : 0 < max_length) :
    ∀ (fuel : Nat) (line : List Char), line.length ≤ fuel + max_length →
      (∀ m ∈ (Bot.chunkLoop max_length fuel line).1, m.length ≤ max_length) ∧
      (Bot.chunkLoop max_length fuel line).2.length ≤ max_length := by
  intro fuel
  induction fuel with
  | zero =>
    intro line h
    refine ⟨?_, ?_⟩
    · intro m hmem
      simp [Bot.chunkLoop] at hmem
    · simp only [Bot.chunkLoop]
      omega
  | succ fuel ih =>
    intro line h
    by_cases hl : line.length > max_length
    · have hrec := ih (line.drop max_length) (by simp [List.length_drop]; omega)
      simp only [Bot.chunkLoop, if_pos hl]
      refine ⟨?_, hrec.2⟩
      intro m hmem
      rcases List.mem_cons.mp hmem with h1 | h2
      · subst h1
        simp [List.length_take]
      · exact hrec.1 m h2
    · simp only [Bot.chunkLoop, if_neg hl]
      refine ⟨?_, by omega⟩
      intro m hmem
      simp at hmem

theorem processLine_inv (max_length : Nat) (hm : 0 < max_length)
    (acc : List (List Char) × List Char) (line : List Char)
    (h1 : ∀ m ∈ acc.1, m.length ≤ max_length) (h2 : acc.2.length ≤ max_length) :
    (∀ m ∈ (Bot.processLine max_length acc line).1, m.length ≤ max_length) ∧
    (Bot.processLine max_length acc line).2.length ≤ max_length := by
  obtain ⟨messages, current⟩ := acc
  simp only at h1 h2
  have hflush : ∀ m ∈ (if current ≠ [] then messages ++ [current] else messages),
      m.length ≤ max_length := by
    intro m hmem
    by_cases hc : current ≠ []
    · rw [if_pos hc] at hmem
      rcases List.mem_append.mp hmem with hmm | hmm
      · exact h1 m hmm
      · simp at hmm
        subst hmm
        exact h2
    · rw [if_neg hc] at hmem
      exact h1 m hmem
  simp only [Bot.processLine]
  by_cases hov : (current ++ '\n' :: line).length > max_length
  · simp only [if_pos hov]
    by_cases hl : line.length > max_length
    · simp only [if_pos hl]
      have hchunk := chunkLoop_spec max_length hm line.length line (by omega)
      refine ⟨?_, hchunk.2⟩
      intro m hmem
      rcases List.mem_append.mp hmem with hmm | hmm
      · exact hflush m hmm
      · exact hchunk.1 m hmm
    · simp only [if_neg hl]
      exact ⟨hflush, by omega⟩
  · simp only [if_neg hov]
    simp only [List.length_append, List.length_cons] at hov
    by_cases hc : current ≠ []
    · simp only [if_pos hc]
      refine ⟨h1, ?_⟩
      simp only [List.length_append, List.length_cons]
      omega
    · simp only [if_neg hc]
      exact ⟨h1, by omega⟩

theorem foldl_processLine_inv (max_length : Nat) (hm : 0 < max_length) :
    ∀ (lines : List (List Char)) (acc : List (List Char) × List Char),
      (∀ m ∈ acc.1, m.length ≤ max_length) → acc.2.length ≤ max_length →
      (∀ m ∈ (lines.foldl (Bot.processLine max_length) acc).1, m.length ≤ max_length) ∧
      (lines.foldl (Bot.processLine max_length) acc).2.length ≤ max_length := by
  intro lines
  induction lines with
  | nil =>
    intro acc h1 h2
    exact ⟨h1, h2⟩
  | cons line lines ih =>
    intro acc h1 h2
    have hstep := processLine_inv max_length hm acc line h1 h2
    simpa [List.foldl_cons] using ih _ hstep.1 hstep.2

/-- C9: for every text and every positive `max_length`, each element of
`split_message text max_length` has length at most `max_length`, and a text
that already fits is returned as the one-element list containing it. -/
theorem claim9_split_message_bounds (text : List Char) (max_length : Nat)
    (hm : 0 < max_length) :
    (∀ m ∈ Bot.split_message text max_length, m.length ≤ max_length) ∧
    (text.length ≤ max_length → Bot.split_message text max_length = [text]) := by
  by_cases ht : text.length ≤ max_length
  · refine ⟨?_, fun _ => by simp [Bot.split_message, ht]⟩
    intro m hmem
    simp [Bot.split_message, ht] at hmem
    subst hmem
    exact ht
  · refine ⟨?_, fun h => absurd h ht⟩
    intro m hmem
    simp only [Bot.split_message, if_neg ht] at hmem
    have hinv := foldl_processLine_inv max_length hm (text.splitOn '\n') ([], [])
      (by intro m hmm; simp at hmm) (by simp)
    by_cases hc : ((text.splitOn '\n').foldl (Bot.processLine max_length) ([], [])).2 ≠ []
    · rw [if_pos hc] at hmem
      rcases List.mem_append.mp hmem with hmm | hmm
      · exact hinv.1 m hmm
      · simp at hmm
        subst hmm
        exact hinv.2
    · rw [if_neg hc] at hmem
      exact hinv.1 m hmem

/-- C9 witness: a 7-character text split with `max_length = 5`. -/
theorem claim9_witness :
    (0 : Nat) < 5 ∧
    ((∀ m ∈ Bot.split_message ['a', 'b', '\n', 'c', 'd', 'e', 'f'] 5, m.length ≤ 5) ∧
     (['a', 'b', '\n', 'c', 'd', 'e', 'f'].length ≤ 5 →
        Bot.split_message ['a', 'b', '\n', 'c', 'd', 'e', 'f'] 5 =
          [['a', 'b', '\n', 'c', 'd', 'e', 'f']])) :=
  ⟨by decide,
   claim9_split_message_bounds ['a', 'b', '\n', 'c', 'd', 'e', 'f'] 5 (by decide)⟩

theorem matchHHMM_eq_claimShape (s : List Char) :
    Bot.matchHHMM s = Bot.claimTimeShape s := by
  match s with
  | [] => rfl
  | [_] => rfl
  | [_, _] => rfl
  | [_, _, _] => rfl
  | [h1, c2, m1, m2] =>
    simp only [Bot.matchHHMM, Bot.claimTimeShape, Bot.IsDig, Bot.digVal]
    exact if_congr (by omega) rfl rfl
  | [h1, h2, c3, m1, m2] =>
    simp only [Bot.matchHHMM, Bot.claimTimeShape, Bot.IsDig, Bot.digVal]
    exact if_congr (by omega) rfl rfl
  | _ :: _ :: _ :: _ :: _ :: _ :: _ => rfl

/-- C10 counterexample: the claim says every string other than a plain
`H:MM` / `HH:MM` time raises `ValueError`, but `"09:30\n"` (a trailing
newline, i.e. extra surrounding text) is accepted by the code, because
Python's `re` anchor `$` also matches just before a trailing newline. -/
theorem claim10_counterexample :
    Bot.parse_time_string ['0', '9', ':', '3', '0', '\n'] = Except.ok (9, 30) ∧
    Bot.claimTimeShape ['0', '9', ':', '3', '0', '\n'] = none :=
  ⟨rfl, rfl⟩

/-- C10 amended: `parse_time_string(s)` returns `time(h, m)` exactly when
`s` is an hour (one or two digits, value 0-23) followed by `':'` and a
two-digit minute (00-59) — or such a string followed by exactly one
trailing newline, which Python's `$` anchor tolerates — and raises
`ValueError` for every other string. -/
theorem claim10_amended (s : List Char) :
    Bot.parse_time_string s =
      (match Bot.claimTimeShapeNL s with
       | some (h, m) => Except.ok (h, m)
       | none => Except.error
           "시간 형식이 올바르지 않습니다. HH:MM 형식으로 입력해주세요. (예: 09:30)") := by
  simp only [Bot.parse_time_string, Bot.reFullMatch, Bot.claimTimeShapeNL,
    matchHHMM_eq_claimShape]

end AgentCourse
